import Mathlib

set_option maxHeartbeats 1000000

namespace WP

/-- Calendar datetime at second granularity: the shape of the `datetime`
values flowing through `models.py` and `storage.py` (the pipeline only ever
formats and groups at second granularity). -/
structure DateTime where
  year : Nat
  month : Nat
  day : Nat
  hour : Nat
  minute : Nat
  second : Nat
deriving DecidableEq, Repr

/-- The calendar-date part of a timestamp (`df["_ts"].dt.date` in
`storage.py`). -/
def DateTime.date (t : DateTime) : Nat × Nat × Nat := (t.year, t.month, t.day)

/-- Datetimes whose strftime rendering round-trips through the fixed-format
parse in `Storage.write` (four-digit year, calendar-sane components). -/
def ValidDT (t : DateTime) : Prop :=
  1000 ≤ t.year ∧ t.year ≤ 9999 ∧ 1 ≤ t.month ∧ t.month ≤ 12 ∧
  1 ≤ t.day ∧ t.day ≤ 31 ∧ t.hour ≤ 23 ∧ t.minute ≤ 59 ∧ t.second ≤ 59

instance (t : DateTime) : Decidable (ValidDT t) := by
  unfold ValidDT; infer_instance

/-- Character of one decimal digit. -/
def dChar (d : Nat) : Char := Char.ofNat (48 + d)

/-- Two-digit zero-padded decimal rendering, as strftime produces for
`%d`, `%m`, `%H`, `%M`, `%S`. -/
def twoDigits (n : Nat) : List Char := [dChar (n / 10), dChar (n % 10)]

/-- Four-digit decimal rendering, as strftime produces for `%Y` on
four-digit years. -/
def fourDigits (n : Nat) : List Char := twoDigits (n / 100) ++ twoDigits (n % 100)

/-- `WeatherRecord.format_datetime` (models.py): strftime
`"%d-%m-%Y %H:%M:%S"`. -/
def format_datetime (t : DateTime) : String :=
  String.mk (twoDigits t.day ++ '-' ::
    (twoDigits t.month ++ '-' ::
      (fourDigits t.year ++ ' ' ::
        (twoDigits t.hour ++ ':' ::
          (twoDigits t.minute ++ ':' :: twoDigits t.second)))))

/-- The error raised by `self.format_datetime(self.timestamp)` when the
field is `None`: `None.strftime` does not exist. -/
def fmtAttrErr : String := "AttributeError: 'NoneType' object has no attribute 'strftime'"

/-- `format_datetime` as invoked from `formatted_record` on an optional
field: on `None` the attribute access `dt.strftime` raises. -/
def format_datetimeOpt : Option DateTime → Except String String
  | Option.none => Except.error fmtAttrErr
  | Option.some t => Except.ok (format_datetime t)

/-- strftime `'%Y%m%d_%H%M%S'` applied to the single `datetime.now`
value taken once per `Storage.write` call. -/
def fmtRunTs (t : DateTime) : String :=
  String.mk (fourDigits t.year ++ twoDigits t.month ++ twoDigits t.day ++ '_' ::
    (twoDigits t.hour ++ twoDigits t.minute ++ twoDigits t.second))

/-- Read exactly two decimal digits. -/
def parse2 : List Char → Option (Nat × List Char)
  | c1 :: c2 :: rest =>
    if c1.isDigit && c2.isDigit then
      Option.some ((c1.toNat - 48) * 10 + (c2.toNat - 48), rest)
    else Option.none
  | _ => Option.none

/-- Read exactly four decimal digits. -/
def parse4 (cs : List Char) : Option (Nat × List Char) :=
  match parse2 cs with
  | Option.none => Option.none
  | Option.some (a, r1) =>
    match parse2 r1 with
    | Option.none => Option.none
    | Option.some (b, r2) => Option.some (a * 100 + b, r2)

/-- Require one literal character. -/
def expectC (ch : Char) : List Char → Option (List Char)
  | c :: rest => if c = ch then Option.some rest else Option.none
  | [] => Option.none

/-- Models `pd.to_datetime(col, format="%d-%m-%Y %H:%M:%S", errors="coerce")`
on one cell (storage.py line 60): a strict match of the fixed format — the
Timestamp strings this pipeline produces are exactly of this shape — and a
non-matching or non-calendar string coerces to `NaT`, i.e. `Option.none`. -/
def pdToDatetime (s : String) : Option DateTime :=
  match parse2 s.data with
  | Option.none => Option.none
  | Option.some (d, r0) =>
  match expectC '-' r0 with
  | Option.none => Option.none
  | Option.some r1 =>
  match parse2 r1 with
  | Option.none => Option.none
  | Option.some (mo, r2) =>
  match expectC '-' r2 with
  | Option.none => Option.none
  | Option.some r3 =>
  match parse4 r3 with
  | Option.none => Option.none
  | Option.some (y, r4) =>
  match expectC ' ' r4 with
  | Option.none => Option.none
  | Option.some r5 =>
  match parse2 r5 with
  | Option.none => Option.none
  | Option.some (h, r6) =>
  match expectC ':' r6 with
  | Option.none => Option.none
  | Option.some r7 =>
  match parse2 r7 with
  | Option.none => Option.none
  | Option.some (mi, r8) =>
  match expectC ':' r8 with
  | Option.none => Option.none
  | Option.some r9 =>
  match parse2 r9 with
  | Option.none => Option.none
  | Option.some (sec, r10) =>
  if r10 = [] ∧ 1 ≤ mo ∧ mo ≤ 12 ∧ 1 ≤ d ∧ d ≤ 31 ∧ h ≤ 23 ∧ mi ≤ 59 ∧ sec ≤ 59 then
    Option.some (DateTime.mk y mo d h mi sec)
  else Option.none

lemma dChar_facts : ∀ d : Nat, d < 10 → (dChar d).isDigit = true ∧ (dChar d).toNat = 48 + d := by
  decide

lemma parse2_twoDigits (n : Nat) (h : n < 100) (r : List Char) :
    parse2 (twoDigits n ++ r) = Option.some (n, r) := by
  have h1 := dChar_facts (n / 10) (by omega)
  have h2 := dChar_facts (n % 10) (by omega)
  simp only [twoDigits, List.cons_append, List.nil_append, parse2,
    h1.1, h2.1, Bool.and_self, if_pos, h1.2, h2.2]
  simp only [Option.some.injEq, Prod.mk.injEq, and_true]
  omega

lemma parse4_fourDigits (n : Nat) (h : n ≤ 9999) (r : List Char) :
    parse4 (fourDigits n ++ r) = Option.some (n, r) := by
  have e2 : twoDigits (n / 100) ++ (twoDigits (n % 100) ++ r)
      = fourDigits n ++ r := by
    simp [fourDigits, List.append_assoc]
  rw [parse4, ← e2, parse2_twoDigits (n / 100) (by omega)]
  dsimp only
  rw [parse2_twoDigits (n % 100) (by omega)]
  dsimp only
  simp only [Option.some.injEq, Prod.mk.injEq, and_true]
  omega

lemma expectC_cons (ch : Char) (r : List Char) :
    expectC ch (ch :: r) = Option.some r := by
  simp [expectC]

/-- The storage layer's fixed-format parse inverts the record's
timestamp rendering on calendar-valid datetimes. -/
lemma pdToDatetime_format (t : DateTime) (h : ValidDT t) :
    pdToDatetime (format_datetime t) = Option.some t := by
  obtain ⟨h1, h2, h3, h4, h5, h6, h7, h8, h9⟩ := h
  rw [pdToDatetime]
  have hdata : (format_datetime t).data
      = twoDigits t.day ++ '-' ::
        (twoDigits t.month ++ '-' ::
          (fourDigits t.year ++ ' ' ::
            (twoDigits t.hour ++ ':' ::
              (twoDigits t.minute ++ ':' :: twoDigits t.second)))) := rfl
  rw [hdata]
  rw [parse2_twoDigits t.day (by omega)]
  dsimp only
  rw [expectC_cons]
  dsimp only
  rw [parse2_twoDigits t.month (by omega)]
  dsimp only
  rw [expectC_cons]
  dsimp only
  rw [parse4_fourDigits t.year (by omega)]
  dsimp only
  rw [expectC_cons]
  dsimp only
  rw [parse2_twoDigits t.hour (by omega)]
  dsimp only
  rw [expectC_cons]
  dsimp only
  rw [parse2_twoDigits t.minute (by omega)]
  dsimp only
  rw [expectC_cons]
  dsimp only
  have e3 : twoDigits t.second ++ ([] : List Char) = twoDigits t.second := by simp
  rw [← e3, parse2_twoDigits t.second (by omega)]
  dsimp only
  rw [if_pos (by refine ⟨rfl, ?_, ?_, ?_, ?_, ?_, ?_, ?_⟩ <;> omega)]

/-- A dictionary key or list index in a parsed JSON payload
(`*keys` of `OpenWeatherClient.get_field`). -/
inductive Key where
  | s (v : String)
  | i (v : Int)
deriving DecidableEq, Repr

/-- A Python value as produced by `response.json()`: nested dicts and
lists over scalars (None, int, float, str). -/
inductive PyVal where
  | none
  | int (v : Int)
  | float (v : Rat)
  | str (v : String)
  | list (xs : List PyVal)
  | dict (entries : List (Key × PyVal))
deriving Repr

/-- Python `key in d` / `d[key]` on a dict, first matching entry. -/
def dictGet : List (Key × PyVal) → Key → Option PyVal
  | [], _ => Option.none
  | (k', v) :: rest, k => if k' = k then Option.some v else dictGet rest k

/-- `OpenWeatherClient.get_field` (api_client.py lines 125-150): walk the
key path; on a dict containing the key or a list with an in-range
non-negative integer index, descend; anything else returns the default. -/
def get_field (d : PyVal) (keys : List Key) (dflt : PyVal) : PyVal :=
  match keys with
  | [] => d
  | k :: ks =>
    match d with
    | PyVal.dict entries =>
      match dictGet entries k with
      | Option.some v => get_field v ks dflt
      | Option.none => dflt
    | PyVal.list xs =>
      match k with
      | Key.i n =>
        if h : 0 ≤ n ∧ n.toNat < xs.length then get_field (xs.get ⟨n.toNat, h.2⟩) ks dflt
        else dflt
      | Key.s _ => dflt
    | _ => dflt

/-- Scalar (non-dict, non-list) Python values: `get_field` can never
descend through these. -/
def PyVal.isScalar : PyVal → Prop
  | PyVal.dict _ => False
  | PyVal.list _ => False
  | _ => True

/-- Outcome of one network attempt: a parsed 2xx JSON body, or any
`requests.RequestException` (timeout, DNS failure, connection failure,
or the `raise_for_status` HTTPError on a non-2xx status). -/
def Net : Type := Nat → Option PyVal

/-- Trace of one `fetch_weather` call: how many attempts ran, the
duration of each `time.sleep` in order, and the returned body or the
terminal `RuntimeError` message. -/
structure FetchTrace where
  attempts : Nat
  sleeps : List Nat
  outcome : Except String PyVal
deriving Repr

/-- The retry loop body of `fetch_weather` over the remaining attempt
indices (`for attempt in range(1, max_retries + 1)`): on success return
the body; on failure sleep `backoff_seconds` only when a further attempt
remains (`if attempt < self.max_retries`). -/
def runAttempts (net : Net) (backoff : Nat) : List Nat → Nat × List Nat × Option PyVal
  | [] => (0, [], Option.none)
  | [i] =>
    match net i with
    | Option.some r => (1, [], Option.some r)
    | Option.none => (1, [], Option.none)
  | i :: j :: rest =>
    match net i with
    | Option.some r => (1, [], Option.some r)
    | Option.none =>
      let (a, s, o) := runAttempts net backoff (j :: rest)
      (a + 1, backoff :: s, o)

/-- `OpenWeatherClient.fetch_weather` (api_client.py lines 60-123): retry
loop over attempts `1..max_retries`, fixed backoff, terminal
`RuntimeError` naming the `"City,CC"` query after exhaustion. -/
def fetch_weather (max_retries backoff : Nat) (city country : String) (net : Net) :
    FetchTrace :=
  let query := city ++ "," ++ country
  let (a, s, o) := runAttempts net backoff (List.range' 1 max_retries)
  { attempts := a
    sleeps := s
    outcome :=
      match o with
      | Option.some r => Except.ok r
      | Option.none => Except.error ("Failed to fetch data for " ++ query) }

/-- `WeatherRecord` (models.py): every field is Optional, numeric floats
are modelled as rationals. -/
structure WeatherRecord where
  city : Option String
  country : Option String
  timestamp : Option DateTime
  timezone_offset : Option Int
  weather : Option String
  weather_description : Option String
  temperature_min : Option Rat
  temperature_max : Option Rat
  temperature_current : Option Rat
  temperature_feels_like : Option Rat
  cloudiness : Option Int
  wind_speed : Option Rat
  wind_direction_deg : Option Int
  humidity : Option Int
  pressure : Option Int
  sunrise : Option DateTime
  sunset : Option DateTime
  units : Option String
deriving DecidableEq, Repr

/-- The label computation in `WeatherRecord.timezone_str` once the offset
is known to be an int: Python `//` is floor division, `abs(hours)` prints
the absolute value. -/
def tzLabel (off : Int) : String :=
  let hours : Int := Int.fdiv off 3600
  if hours = 0 then "UTC"
  else "UTC" ++ (if 0 < hours then "+" else "-") ++ toString hours.natAbs

/-- `WeatherRecord.timezone_str` (models.py lines 33-39): with an absent
offset, `None // 3600` raises. -/
def timezone_str (r : WeatherRecord) : Except String String :=
  match r.timezone_offset with
  | Option.none =>
    Except.error "TypeError: unsupported operand type(s) for //: 'NoneType' and 'int'"
  | Option.some off => Except.ok (tzLabel off)

/-- The fixed 16-point direction table of
`WeatherRecord.wind_direction_compass`. -/
def dirs : List String :=
  ["North", "North-Northeast", "Northeast", "East-Northeast",
   "East", "East-Southeast", "Southeast", "South-Southeast",
   "South", "South-Southwest", "Southwest", "West-Southwest",
   "West", "West-Northwest", "Northwest", "North-Northwest"]

/-- Python 3 `round` on an exact value: round half to even. -/
def pythonRound (q : Rat) : Int :=
  let f : Int := ⌊q⌋
  let frac : Rat := q - f
  if frac < 1/2 then f
  else if 1/2 < frac then f + 1
  else if f % 2 = 0 then f else f + 1

/-- The index-and-lookup computation in `wind_direction_compass`:
`dirs[round(deg / 22.5) % 16]`; Python `%` on a positive modulus is
`Int.emod` here (result in `[0, 16)`). -/
def windCompass (deg : Rat) : String :=
  dirs.getD ((pythonRound (deg / (45/2))).emod 16).toNat ""

/-- `WeatherRecord.wind_direction_compass` (models.py lines 41-61): with
an absent wind direction, `None / 22.5` raises. -/
def wind_direction_compass (r : WeatherRecord) : Except String String :=
  match r.wind_direction_deg with
  | Option.none =>
    Except.error "TypeError: unsupported operand type(s) for /: 'NoneType' and 'float'"
  | Option.some d => Except.ok (windCompass (d : Rat))

/-- Temperature unit table in `field_with_units`:
`{"metric": "°C", "imperial": "°F", "default": "K"}.get(self.units, "K")`. -/
def tempUnit (units : Option String) : String :=
  match units with
  | Option.some "metric" => "°C"
  | Option.some "imperial" => "°F"
  | Option.some "default" => "K"
  | _ => "K"

/-- Wind-speed unit in `field_with_units`:
`"m/s" if self.units in ("metric", "default") else "mph"`. -/
def windUnit (units : Option String) : String :=
  match units with
  | Option.some "metric" => "m/s"
  | Option.some "default" => "m/s"
  | _ => "mph"

/-- A cell of the output table: string, int, float, or null (the value a
`None` record field contributes to the row). -/
inductive Cell where
  | s (v : String)
  | i (v : Int)
  | f (v : Rat)
  | none
deriving DecidableEq, Repr

def cellOfStr : Option String → Cell
  | Option.some v => Cell.s v
  | Option.none => Cell.none

def cellOfInt : Option Int → Cell
  | Option.some v => Cell.i v
  | Option.none => Cell.none

def cellOfRat : Option Rat → Cell
  | Option.some v => Cell.f v
  | Option.none => Cell.none

/-- One output row: the dict `formatted_record` returns, in key order. -/
def Row : Type := List (String × Cell)

instance : DecidableEq Row := by unfold Row; infer_instance

/-- `WeatherRecord.formatted_record` (models.py lines 88-111). The dict
literal is evaluated top to bottom, so the first raising entry determines
the exception: `Timestamp` raises on an absent timestamp, then `Timezone`
on an absent offset, then `Wind_Direction` on an absent wind direction,
then `Sunrise`/`Sunset` on absent sun times. The unit embedded in each
temperature/wind header is `field_with_units(...).split()[-1]`, which is
exactly the unit label since the unit strings contain no space. -/
def formatted_record (r : WeatherRecord) : Except String Row :=
  match format_datetimeOpt r.timestamp with
  | Except.error e => Except.error e
  | Except.ok tsStr =>
  match timezone_str r with
  | Except.error e => Except.error e
  | Except.ok tzStr =>
  match wind_direction_compass r with
  | Except.error e => Except.error e
  | Except.ok windStr =>
  match format_datetimeOpt r.sunrise with
  | Except.error e => Except.error e
  | Except.ok sunriseStr =>
  match format_datetimeOpt r.sunset with
  | Except.error e => Except.error e
  | Except.ok sunsetStr =>
  Except.ok
    [("City", cellOfStr r.city),
     ("Country", cellOfStr r.country),
     ("Timestamp", Cell.s tsStr),
     ("Timezone", Cell.s tzStr),
     ("Weather", cellOfStr r.weather),
     ("Weather_Description", cellOfStr r.weather_description),
     ("Cloudiness_(%)", cellOfInt r.cloudiness),
     ("Temperature_Current_(" ++ tempUnit r.units ++ ")", cellOfRat r.temperature_current),
     ("Temperature_Min_(" ++ tempUnit r.units ++ ")", cellOfRat r.temperature_min),
     ("Temperature_Max_(" ++ tempUnit r.units ++ ")", cellOfRat r.temperature_max),
     ("Temperature_Feels_Like_(" ++ tempUnit r.units ++ ")", cellOfRat r.temperature_feels_like),
     ("Wind_Speed_(" ++ windUnit r.units ++ ")", cellOfRat r.wind_speed),
     ("Wind_Direction", Cell.s windStr),
     ("Humidity_(%)", cellOfInt r.humidity),
     ("Pressure_(hPa)", cellOfInt r.pressure),
     ("Sunrise", Cell.s sunriseStr),
     ("Sunset", Cell.s sunsetStr)]

/-- Filesystem effects of a `Storage.write` call, in program order:
`path.mkdir(parents=True, exist_ok=True)` and `_save(df, filepath)`
(the saved rows are the group's rows with the `_ts` helper column
dropped). -/
inductive FsEvent where
  | mkdir (path : String)
  | save (path : String) (rows : List Row)
deriving DecidableEq

/-- The format dispatch of `Storage._save` (storage.py lines 34-43): the
three supported branches serialize the frame; any other tag raises
`ValueError`. -/
def saveOk (fmt : String) : Bool :=
  fmt == "parquet" || fmt == "csv" || fmt == "json"

/-- Python dict/column access `row[key]` on a formatted row. -/
def rowGet : Row → String → Cell
  | [], _ => Cell.none
  | (k, v) :: rest, key => if k = key then v else rowGet rest key

/-- Python `f"{x}"` on a cell value as used for the path segments of
layout `hive_compact` (the City/Country cells are strings when present;
an absent value interpolates as the string `None`). -/
def pyStr : Cell → String
  | Cell.s v => v
  | Cell.i v => toString v
  | Cell.f v => toString v
  | Cell.none => "None"

/-- The `_ts` column entry for one row: `pd.to_datetime` of the row's
`Timestamp` string under `errors="coerce"`; a non-string cell coerces
to `NaT`. -/
def tsCell (row : Row) : Option DateTime :=
  match rowGet row "Timestamp" with
  | Cell.s str => pdToDatetime str
  | _ => Option.none

/-- Insert into a list sorted by `le`. -/
def insSorted (le : α → α → Bool) (x : α) : List α → List α
  | [] => [x]
  | y :: ys => if le x y then x :: y :: ys else y :: insSorted le x ys

/-- Insertion sort: pandas `groupby` yields groups in ascending key
order. -/
def sortBy (le : α → α → Bool) (xs : List α) : List α :=
  xs.foldr (insSorted le) []

/-- The distinct group keys occurring in a column (order irrelevant:
they are sorted afterwards). -/
def distinctKeys [DecidableEq κ] : List κ → List κ
  | [] => []
  | k :: ks =>
    let r := distinctKeys ks
    if k ∈ r then r else k :: r

/-- pandas `df.groupby(key)`: rows whose key is missing (`None`/`NaN`)
are dropped, keys are emitted in ascending order, and each group keeps
the original row order. -/
def groupsBy [DecidableEq κ] (le : κ → κ → Bool) (keyOf : α → Option κ) (xs : List α) :
    List (κ × List α) :=
  (sortBy le (distinctKeys (xs.filterMap keyOf))).map
    (fun k => (k, xs.filter (fun x => decide (keyOf x = Option.some k))))

/-- Boolean lexicographic order on calendar dates. -/
def dateLe (a b : Nat × Nat × Nat) : Bool :=
  decide (a.1 < b.1) ||
    (a.1 == b.1 && (decide (a.2.1 < b.2.1) || (a.2.1 == b.2.1 && decide (a.2.2 ≤ b.2.2))))

/-- Boolean order on strings. -/
def strLe (a b : String) : Bool := decide (a ≤ b)

def dateStrLe (a b : (Nat × Nat × Nat) × String) : Bool :=
  if a.1 = b.1 then strLe a.2 b.2 else dateLe a.1 b.1

def strDateLe (a b : String × (Nat × Nat × Nat)) : Bool :=
  if a.1 = b.1 then dateLe a.2 b.2 else strLe a.1 b.1

/-- The `Country` groupby key of a row: a string, or missing (dropped by
pandas) when the record had no country. -/
def rowCountry (row : Row) : Option String :=
  match rowGet row "Country" with
  | Cell.s c => Option.some c
  | _ => Option.none

/-- The `City` groupby key of a row. -/
def rowCity (row : Row) : Option String :=
  match rowGet row "City" with
  | Cell.s c => Option.some c
  | _ => Option.none

/-- Python `str.lower()` on a tag string, as a character map. -/
def strToLower (s : String) : String := String.mk (s.data.map Char.toLower)

/-- `Storage` configuration; `Storage.__init__` lower-cases the format
and layout tags. -/
structure Storage where
  base_path : String
  fmt : String
  layout : String

def Storage.make (base_path fmt layout : String) : Storage :=
  { base_path := base_path, fmt := strToLower fmt, layout := strToLower layout }

/-- The per-group tail of each layout branch: `path.mkdir(...)` then
`self._save(group, path / filename)`; an unsupported format raises
`ValueError` inside `_save`, after the directory was created, aborting
the remaining groups. -/
def saveGroups (fmt : String) : List (String × String × List Row) →
    List FsEvent × Option String
  | [] => ([], Option.none)
  | (dir, fname, rows) :: rest =>
    if saveOk fmt then
      let (evs, err) := saveGroups fmt rest
      (FsEvent.mkdir dir :: FsEvent.save (dir ++ "/" ++ fname) rows :: evs, err)
    else
      ([FsEvent.mkdir dir], Option.some ("Unsupported format: " ++ fmt))

/-- `Storage.write` (storage.py lines 45-105). Returns the filesystem
events in program order and the exception message, if one is raised.
`now` is the single `datetime.now(timezone.utc)` value of the call. -/
def Storage.write (st : Storage) (now : DateTime) (records : List WeatherRecord) :
    List FsEvent × Option String :=
  if records.isEmpty then ([], Option.none)
  else
    match records.mapM formatted_record with
    | Except.error e => ([], Option.some e)
    | Except.ok data =>
      -- df with its parsed `_ts` column; `dropna(subset=["_ts"])` keeps
      -- exactly the rows whose Timestamp string parsed
      let df : List (Row × DateTime) :=
        data.filterMap (fun row => (tsCell row).map (fun ts => (row, ts)))
      let run_ts := fmtRunTs now
      if st.layout = "date" then
        saveGroups st.fmt
          ((groupsBy dateLe (fun p => Option.some p.2.date) df).map
            (fun g =>
              (st.base_path ++ "/year=" ++ toString g.1.1 ++ "/month=" ++ toString g.1.2.1 ++
                 "/day=" ++ toString g.1.2.2,
               "weather_" ++ (run_ts ++ ("." ++ st.fmt)),
               g.2.map (fun p => p.1))))
      else if st.layout = "date_country" then
        saveGroups st.fmt
          ((groupsBy dateStrLe (fun p => (rowCountry p.1).map (fun c => (p.2.date, c))) df).map
            (fun g =>
              (st.base_path ++ "/year=" ++ toString g.1.1.1 ++ "/month=" ++ toString g.1.1.2.1 ++
                 "/day=" ++ toString g.1.1.2.2,
               g.1.2 ++ ("_weather_" ++ (run_ts ++ ("." ++ st.fmt))),
               g.2.map (fun p => p.1))))
      else if st.layout = "country_date" then
        saveGroups st.fmt
          ((groupsBy strDateLe (fun p => (rowCountry p.1).map (fun c => (c, p.2.date))) df).map
            (fun g =>
              (st.base_path ++ "/" ++ g.1.1 ++ "/year=" ++ toString g.1.2.1 ++ "/month=" ++
                 toString g.1.2.2.1 ++ "/day=" ++ toString g.1.2.2.2,
               "weather_" ++ (run_ts ++ ("." ++ st.fmt)),
               g.2.map (fun p => p.1))))
      else if st.layout = "hive_compact" then
        -- df.iterrows(): one group per row, in row order
        saveGroups st.fmt
          (df.map (fun p =>
            (st.base_path ++ "/year=" ++ toString p.2.year ++ "/month=" ++ toString p.2.month ++
               "/day=" ++ toString p.2.day ++ "/" ++ pyStr (rowGet p.1 "Country") ++ "/" ++
               pyStr (rowGet p.1 "City"),
             pyStr (rowGet p.1 "Country") ++ ("_" ++ (pyStr (rowGet p.1 "City") ++
               ("_" ++ (run_ts ++ ("." ++ st.fmt))))),
             [p.1])))
      else if st.layout = "city_date" then
        saveGroups st.fmt
          ((groupsBy strDateLe (fun p => (rowCity p.1).map (fun c => (c, p.2.date))) df).map
            (fun g =>
              (st.base_path ++ "/" ++ g.1.1 ++ "/year=" ++ toString g.1.2.1 ++ "/month=" ++
                 toString g.1.2.2.1 ++ "/day=" ++ toString g.1.2.2.2,
               "weather_" ++ (run_ts ++ ("." ++ st.fmt)),
               g.2.map (fun p => p.1))))
      else ([], Option.some ("Unsupported layout: " ++ st.layout))

/-- The save events of an event trace, as (path, rows) pairs in order. -/
def savesOf (evs : List FsEvent) : List (String × List Row) :=
  evs.filterMap (fun ev =>
    match ev with
    | FsEvent.save p rows => Option.some (p, rows)
    | FsEvent.mkdir _ => Option.none)

/-- Applying one event to the file system: saving to an existing path
overwrites its content. -/
def applyEvent (fs : List (String × List Row)) : FsEvent → List (String × List Row)
  | FsEvent.mkdir _ => fs
  | FsEvent.save p rows => (fs.filter (fun e => decide (e.1 ≠ p))) ++ [(p, rows)]

/-- The file system contents after a trace of events. -/
def runFs (evs : List FsEvent) : List (String × List Row) :=
  evs.foldl applyEvent []

/-- The content persisted at a path. -/
def fsGet (fs : List (String × List Row)) (p : String) : Option (List Row) :=
  (fs.find? (fun e => decide (e.1 = p))).map (fun e => e.2)

/-- `datetime.fromtimestamp(v, tz=timezone.utc)` as called in main.py:
accepts a number; `None` (the `get_field` default when `dt`, `sys.sunrise`
or `sys.sunset` is absent) raises `TypeError`. The epoch-seconds to
calendar conversion is the standard library's, taken as a parameter
`conv`. -/
def pyFromtimestamp (conv : Rat → DateTime) : PyVal → Except String DateTime
  | PyVal.int n => Except.ok (conv (n : Rat))
  | PyVal.float q => Except.ok (conv q)
  | PyVal.none =>
    Except.error "TypeError: 'NoneType' object cannot be interpreted as an integer"
  | _ => Except.error "TypeError: an integer is required"

/-- pydantic validation of an `Optional[int]` field: absent stays absent,
ints pass, anything else is a validation error (coercions of numeric
strings etc. are irrelevant to the payload shapes modelled here). -/
def asOptInt : PyVal → Except String (Option Int)
  | PyVal.none => Except.ok Option.none
  | PyVal.int n => Except.ok (Option.some n)
  | _ => Except.error "ValidationError: value is not a valid integer"

/-- pydantic validation of an `Optional[str]` field. -/
def asOptStr : PyVal → Except String (Option String)
  | PyVal.none => Except.ok Option.none
  | PyVal.str s => Except.ok (Option.some s)
  | _ => Except.error "ValidationError: str type expected"

/-- pydantic validation of an `Optional[float]` field. -/
def asOptRat : PyVal → Except String (Option Rat)
  | PyVal.none => Except.ok Option.none
  | PyVal.int n => Except.ok (Option.some (n : Rat))
  | PyVal.float q => Except.ok (Option.some q)
  | _ => Except.error "ValidationError: value is not a valid float"

/-- The `WeatherRecord(...)` construction of main.py lines 90-109 on a
raw payload. The three `datetime.fromtimestamp` calls raise during
argument evaluation (in argument order: timestamp, then sunrise, then
sunset); pydantic field validation happens afterwards, at construction. -/
def buildRecord (conv : Rat → DateTime) (units : String) (city country : String)
    (raw : PyVal) : Except String WeatherRecord :=
  match pyFromtimestamp conv (get_field raw [Key.s "dt"] PyVal.none) with
  | Except.error e => Except.error e
  | Except.ok ts =>
  match pyFromtimestamp conv (get_field raw [Key.s "sys", Key.s "sunrise"] PyVal.none) with
  | Except.error e => Except.error e
  | Except.ok sunriseT =>
  match pyFromtimestamp conv (get_field raw [Key.s "sys", Key.s "sunset"] PyVal.none) with
  | Except.error e => Except.error e
  | Except.ok sunsetT =>
  match asOptInt (get_field raw [Key.s "timezone"] PyVal.none) with
  | Except.error e => Except.error e
  | Except.ok tz =>
  match asOptStr (get_field raw [Key.s "weather", Key.i 0, Key.s "main"] PyVal.none) with
  | Except.error e => Except.error e
  | Except.ok w =>
  match asOptStr (get_field raw [Key.s "weather", Key.i 0, Key.s "description"] PyVal.none) with
  | Except.error e => Except.error e
  | Except.ok wd =>
  match asOptRat (get_field raw [Key.s "main", Key.s "temp_min"] PyVal.none) with
  | Except.error e => Except.error e
  | Except.ok tmin =>
  match asOptRat (get_field raw [Key.s "main", Key.s "temp_max"] PyVal.none) with
  | Except.error e => Except.error e
  | Except.ok tmax =>
  match asOptRat (get_field raw [Key.s "main", Key.s "temp"] PyVal.none) with
  | Except.error e => Except.error e
  | Except.ok tcur =>
  match asOptRat (get_field raw [Key.s "main", Key.s "feels_like"] PyVal.none) with
  | Except.error e => Except.error e
  | Except.ok tfeels =>
  match asOptInt (get_field raw [Key.s "clouds", Key.s "all"] PyVal.none) with
  | Except.error e => Except.error e
  | Except.ok clouds =>
  match asOptRat (get_field raw [Key.s "wind", Key.s "speed"] PyVal.none) with
  | Except.error e => Except.error e
  | Except.ok wspeed =>
  match asOptInt (get_field raw [Key.s "wind", Key.s "deg"] PyVal.none) with
  | Except.error e => Except.error e
  | Except.ok wdeg =>
  match asOptInt (get_field raw [Key.s "main", Key.s "humidity"] PyVal.none) with
  | Except.error e => Except.error e
  | Except.ok hum =>
  match asOptInt (get_field raw [Key.s "main", Key.s "pressure"] PyVal.none) with
  | Except.error e => Except.error e
  | Except.ok pres =>
  Except.ok
    { city := Option.some city
      country := Option.some country
      timestamp := Option.some ts
      timezone_offset := tz
      weather := w
      weather_description := wd
      temperature_min := tmin
      temperature_max := tmax
      temperature_current := tcur
      temperature_feels_like := tfeels
      cloudiness := clouds
      wind_speed := wspeed
      wind_direction_deg := wdeg
      humidity := hum
      pressure := pres
      sunrise := Option.some sunriseT
      sunset := Option.some sunsetT
      units := Option.some units }

/-- Outcome of the loop body of main.py lines 84-117 for one city. -/
inductive CityOutcome where
  | success (r : WeatherRecord)
  | failed (logged : String)
deriving Repr

/-- One iteration of the city ingestion loop: any exception raised by
`fetch_weather` or by the record construction is caught by the
`except Exception` handler, logged, and the city counted as failed. -/
def processCity (conv : Rat → DateTime) (units : String) (city country : String)
    (fetchResult : Except String PyVal) : CityOutcome :=
  match fetchResult with
  | Except.error e =>
    CityOutcome.failed ("Failed processing " ++ city ++ ", " ++ country ++ ": " ++ e)
  | Except.ok raw =>
    match buildRecord conv units city country raw with
    | Except.error e =>
      CityOutcome.failed ("Failed processing " ++ city ++ ", " ++ country ++ ": " ++ e)
    | Except.ok rec => CityOutcome.success rec

/-- The run-level counters and lists main.py accumulates over the city
loop and prints in the final summary. -/
structure RunSummary where
  success_count : Nat
  failed_cities_count : Nat
  failed_cities : List String
  records : List WeatherRecord
deriving Repr

/-- The whole ingestion loop over the valid city list: per city the
fetch outcome is mapped through `processCity`; a failure appends
`f"{country_code}.{city_name}"` to `failed_cities`. -/
def ingest (conv : Rat → DateTime) (units : String)
    (fetch : String → String → Except String PyVal) :
    List (String × String) → RunSummary
  | [] => { success_count := 0, failed_cities_count := 0, failed_cities := [], records := [] }
  | (city, country) :: rest =>
    let s := ingest conv units fetch rest
    match processCity conv units city country (fetch city country) with
    | CityOutcome.success r =>
      { s with success_count := s.success_count + 1, records := r :: s.records }
    | CityOutcome.failed _ =>
      { s with failed_cities_count := s.failed_cities_count + 1,
               failed_cities := (country ++ "." ++ city) :: s.failed_cities }

lemma exceptBindOk {ε α β : Type} (a : α) (f : α → Except ε β) :
    (Except.ok a >>= f) = f a := rfl

lemma exceptBindErr {ε α β : Type} (e : ε) (f : α → Except ε β) :
    ((Except.error e : Except ε α) >>= f) = Except.error e := rfl

lemma exceptPure {ε α : Type} (a : α) : (pure a : Except ε α) = Except.ok a := rfl

/-- A record whose formatting-relevant fields are present, with a
timestamp whose rendering round-trips. -/
def WfAt (r : WeatherRecord) (t : DateTime) (tz wd : Int) (sr ss : DateTime) : Prop :=
  r.timestamp = Option.some t ∧ ValidDT t ∧ r.timezone_offset = Option.some tz ∧
  r.wind_direction_deg = Option.some wd ∧ r.sunrise = Option.some sr ∧
  r.sunset = Option.some ss

/-- The row `formatted_record` returns for a record with the given
present field values. -/
def rowOf (r : WeatherRecord) (t : DateTime) (tz wd : Int) (sr ss : DateTime) : Row :=
  [("City", cellOfStr r.city),
   ("Country", cellOfStr r.country),
   ("Timestamp", Cell.s (format_datetime t)),
   ("Timezone", Cell.s (tzLabel tz)),
   ("Weather", cellOfStr r.weather),
   ("Weather_Description", cellOfStr r.weather_description),
   ("Cloudiness_(%)", cellOfInt r.cloudiness),
   ("Temperature_Current_(" ++ tempUnit r.units ++ ")", cellOfRat r.temperature_current),
   ("Temperature_Min_(" ++ tempUnit r.units ++ ")", cellOfRat r.temperature_min),
   ("Temperature_Max_(" ++ tempUnit r.units ++ ")", cellOfRat r.temperature_max),
   ("Temperature_Feels_Like_(" ++ tempUnit r.units ++ ")", cellOfRat r.temperature_feels_like),
   ("Wind_Speed_(" ++ windUnit r.units ++ ")", cellOfRat r.wind_speed),
   ("Wind_Direction", Cell.s (windCompass (wd : Rat))),
   ("Humidity_(%)", cellOfInt r.humidity),
   ("Pressure_(hPa)", cellOfInt r.pressure),
   ("Sunrise", Cell.s (format_datetime sr)),
   ("Sunset", Cell.s (format_datetime ss))]

lemma formatted_record_eq (r : WeatherRecord) (t : DateTime) (tz wd : Int)
    (sr ss : DateTime) (h1 : r.timestamp = Option.some t)
    (h2 : r.timezone_offset = Option.some tz) (h3 : r.wind_direction_deg = Option.some wd)
    (h4 : r.sunrise = Option.some sr) (h5 : r.sunset = Option.some ss) :
    formatted_record r = Except.ok (rowOf r t tz wd sr ss) := by
  simp [formatted_record, format_datetimeOpt, timezone_str, wind_direction_compass,
    h1, h2, h3, h4, h5, rowOf]

lemma tsCell_rowOf (r : WeatherRecord) (t : DateTime) (tz wd : Int) (sr ss : DateTime) :
    tsCell (rowOf r t tz wd sr ss) = pdToDatetime (format_datetime t) := rfl

lemma rowCountry_rowOf (r : WeatherRecord) (t : DateTime) (tz wd : Int) (sr ss : DateTime) :
    rowCountry (rowOf r t tz wd sr ss) =
      (match r.country with
       | Option.some c => Option.some c
       | Option.none => Option.none) := by
  cases hc : r.country <;> simp [rowCountry, rowOf, rowGet, cellOfStr, hc]

lemma rowGet_country_rowOf (r : WeatherRecord) (t : DateTime) (tz wd : Int)
    (sr ss : DateTime) :
    rowGet (rowOf r t tz wd sr ss) "Country" = cellOfStr r.country := rfl

lemma rowGet_city_rowOf (r : WeatherRecord) (t : DateTime) (tz wd : Int)
    (sr ss : DateTime) :
    rowGet (rowOf r t tz wd sr ss) "City" = cellOfStr r.city := rfl

/-- Sample well-formed record used to instantiate the theorems below. -/
def sampleWf : WeatherRecord :=
  { city := Option.some "Lisbon", country := Option.some "PT",
    timestamp := Option.some ⟨2024, 5, 3, 12, 0, 0⟩, timezone_offset := Option.some 3600,
    weather := Option.some "Clear", weather_description := Option.some "clear sky",
    temperature_min := Option.some 10, temperature_max := Option.some 20,
    temperature_current := Option.some 15, temperature_feels_like := Option.some 14,
    cloudiness := Option.some 0, wind_speed := Option.some 3,
    wind_direction_deg := Option.some 90, humidity := Option.some 50,
    pressure := Option.some 1013, sunrise := Option.some ⟨2024, 5, 3, 6, 0, 0⟩,
    sunset := Option.some ⟨2024, 5, 3, 20, 0, 0⟩, units := Option.some "metric" }

/-- Same city weather, second sample city. -/
def sampleWf2 : WeatherRecord := { sampleWf with city := Option.some "Porto" }

/-- Sample record with an absent observation timestamp. -/
def sampleNoTs : WeatherRecord := { sampleWf with timestamp := Option.none }

/-- Sample record with an absent timezone offset. -/
def sampleNoTz : WeatherRecord := { sampleWf with timezone_offset := Option.none }

/-- Sample write-call wall-clock instant. -/
def now0 : DateTime := ⟨2024, 5, 3, 13, 0, 0⟩

/-- Claim C5: the field extractor walks the path one segment at a time,
descending through a mapping containing the key or a sequence whose
in-range integer index is the key, and otherwise returns the
caller-supplied default immediately; moreover the four quoted examples
evaluate as stated. -/
theorem C5_field_extractor :
    (∀ d dflt, get_field d [] dflt = d) ∧
    (∀ entries k ks dflt v, dictGet entries k = Option.some v →
      get_field (PyVal.dict entries) (k :: ks) dflt = get_field v ks dflt) ∧
    (∀ entries k ks dflt, dictGet entries k = Option.none →
      get_field (PyVal.dict entries) (k :: ks) dflt = dflt) ∧
    (∀ xs n ks dflt (h : 0 ≤ n ∧ n.toNat < xs.length),
      get_field (PyVal.list xs) (Key.i n :: ks) dflt =
        get_field (xs.get ⟨n.toNat, h.2⟩) ks dflt) ∧
    (∀ xs n ks dflt, ¬(0 ≤ n ∧ n.toNat < xs.length) →
      get_field (PyVal.list xs) (Key.i n :: ks) dflt = dflt) ∧
    (∀ xs s ks dflt, get_field (PyVal.list xs) (Key.s s :: ks) dflt = dflt) ∧
    (∀ v k ks dflt, v.isScalar → get_field v (k :: ks) dflt = dflt) ∧
    get_field (PyVal.dict [(Key.s "a", PyVal.dict [(Key.s "b", PyVal.int 5)])])
      [Key.s "a", Key.s "b"] PyVal.none = PyVal.int 5 ∧
    get_field (PyVal.dict [(Key.s "a", PyVal.dict [])]) [Key.s "a", Key.s "b"]
      (PyVal.int (-1)) = PyVal.int (-1) ∧
    get_field (PyVal.dict [(Key.s "a", PyVal.list [PyVal.int 1, PyVal.int 2])])
      [Key.s "a", Key.i 1] PyVal.none = PyVal.int 2 ∧
    get_field (PyVal.dict [(Key.s "a", PyVal.list [PyVal.int 1])]) [Key.s "a", Key.i 5]
      PyVal.none = PyVal.none := by
  refine ⟨fun d dflt => rfl, ?_, ?_, ?_, ?_, fun xs s ks dflt => rfl, ?_, rfl, rfl, rfl, rfl⟩
  · intro entries k ks dflt v h
    simp [get_field, h]
  · intro entries k ks dflt h
    simp [get_field, h]
  · intro xs n ks dflt h
    simp [get_field, dif_pos h]
  · intro xs n ks dflt h
    simp [get_field, dif_neg h]
  · intro v k ks dflt h
    cases v <;> simp_all [PyVal.isScalar, get_field]

/-- Witness: the mapping-descend and empty-path cases of C5 at a concrete
input. -/
theorem C5_field_extractor_witness :
    get_field (PyVal.dict [(Key.s "x", PyVal.int 7)]) [Key.s "x"] PyVal.none = PyVal.int 7 := by
  have h := C5_field_extractor
  exact (h.2.1 [(Key.s "x", PyVal.int 7)] (Key.s "x") [] PyVal.none (PyVal.int 7) rfl).trans
    (h.1 (PyVal.int 7) PyVal.none)

/-- On an exact integer, Python round is the identity. -/
lemma pythonRound_intCast (k : Int) : pythonRound (k : Rat) = k := by
  unfold pythonRound
  simp only [Int.floor_intCast, sub_self]
  rw [if_pos (by norm_num)]

/-- Claim C8: the compass label is the entry at index
`round(degrees / 22.5) mod 16` of the fixed 16-point table starting at
North and proceeding clockwise in 22.5-degree steps; in particular
0 -> North, 22.5 -> North-Northeast, 45 -> Northeast,
337.5 -> North-Northwest and 360 -> North. -/
theorem C8_wind_compass :
    (∀ deg : Rat, windCompass deg =
      dirs.getD ((pythonRound (deg / (45/2))).emod 16).toNat "") ∧
    (∀ (r : WeatherRecord) (d : Int), r.wind_direction_deg = Option.some d →
      wind_direction_compass r = Except.ok (windCompass (d : Rat))) ∧
    windCompass 0 = "North" ∧
    windCompass 22.5 = "North-Northeast" ∧
    windCompass 45 = "Northeast" ∧
    windCompass 337.5 = "North-Northwest" ∧
    windCompass 360 = "North" := by
  have key : ∀ (q : Rat) (k : Int), q / (45/2) = (k : Rat) →
      windCompass q = dirs.getD (k.emod 16).toNat "" := by
    intro q k hq
    rw [windCompass, hq, pythonRound_intCast]
  refine ⟨fun deg => rfl, ?_, ?_, ?_, ?_, ?_, ?_⟩
  · intro r d h
    simp [wind_direction_compass, h]
  · rw [key 0 0 (by norm_num)]; rfl
  · rw [key 22.5 1 (by norm_num)]; rfl
  · rw [key 45 2 (by norm_num)]; rfl
  · rw [key 337.5 15 (by norm_num)]; rfl
  · rw [key 360 16 (by norm_num)]; rfl

/-- Witness: C8 applied to a concrete record with wind direction 90. -/
theorem C8_wind_compass_witness :
    wind_direction_compass sampleWf = Except.ok "East" := by
  have h := C8_wind_compass.2.1 sampleWf 90 rfl
  rw [h]
  refine congrArg Except.ok ?_
  have h90 : ((90 : Int) : Rat) / (45/2) = ((4 : Int) : Rat) := by norm_num
  rw [windCompass, h90, pythonRound_intCast]
  rfl

/-- Claim C9: the timezone label is the floor of offset / 3600 hours,
rendered as UTC when zero and as UTC+N / UTC-N with N the absolute hour
value otherwise; in particular 0 -> UTC, 3600 -> UTC+1,
-18000 -> UTC-5. -/
theorem C9_timezone_label :
    (∀ off : Int, tzLabel off =
      (if Int.fdiv off 3600 = 0 then "UTC"
       else "UTC" ++ (if 0 < Int.fdiv off 3600 then "+" else "-") ++
         toString (Int.fdiv off 3600).natAbs)) ∧
    (∀ (r : WeatherRecord) (off : Int), r.timezone_offset = Option.some off →
      timezone_str r = Except.ok (tzLabel off)) ∧
    tzLabel 0 = "UTC" ∧
    tzLabel 3600 = "UTC+1" ∧
    tzLabel (-18000) = "UTC-5" := by
  refine ⟨fun off => rfl, ?_, by decide, by decide, by decide⟩
  intro r off h
  simp [timezone_str, h]

/-- Witness: C9 applied to a concrete record with offset 3600. -/
theorem C9_timezone_label_witness :
    timezone_str sampleWf = Except.ok "UTC+1" := by
  have h := C9_timezone_label.2.1 sampleWf 3600 rfl
  rw [h]
  exact congrArg Except.ok (by decide)

lemma runAttempts_allFail (net : Net) (backoff : Nat)
    (hfail : ∀ i, net i = Option.none) :
    ∀ l : List Nat, l ≠ [] →
      runAttempts net backoff l =
        (l.length, List.replicate (l.length - 1) backoff, Option.none) := by
  intro l
  induction l with
  | nil => intro h; exact absurd rfl h
  | cons i tail ih =>
    intro _
    cases tail with
    | nil => simp [runAttempts, hfail]
    | cons j rest =>
      have hr := ih (by simp)
      simp only [runAttempts, hfail, hr]
      simp [List.replicate_succ]

/-- Claim C1: for every attempt limit N at least 1, if every network
attempt fails then `fetch_weather` performs exactly N attempts, sleeps
exactly N-1 times for exactly the configured backoff (never after the
final attempt, with no growth), and raises the terminal error naming the
City,CountryCode query. -/
theorem C1_retry_exhaustion (N backoff : Nat) (city country : String) (net : Net)
    (hN : 1 ≤ N) (hfail : ∀ i, net i = Option.none) :
    (fetch_weather N backoff city country net).attempts = N ∧
    (fetch_weather N backoff city country net).sleeps = List.replicate (N - 1) backoff ∧
    (fetch_weather N backoff city country net).outcome =
      Except.error ("Failed to fetch data for " ++ (city ++ "," ++ country)) := by
  have hne : List.range' 1 N ≠ [] := by
    intro h
    have := congrArg List.length h
    simp [List.length_range'] at this
    omega
  have hr := runAttempts_allFail net backoff hfail (List.range' 1 N) hne
  rw [List.length_range'] at hr
  refine ⟨?_, ?_, ?_⟩ <;> simp [fetch_weather, hr]

/-- Witness: C1 at N = 3 with backoff 7 for Lisbon,PT. -/
theorem C1_retry_exhaustion_witness :
    (fetch_weather 3 7 "Lisbon" "PT" (fun _ => Option.none)).attempts = 3 ∧
    (fetch_weather 3 7 "Lisbon" "PT" (fun _ => Option.none)).sleeps = [7, 7] ∧
    (fetch_weather 3 7 "Lisbon" "PT" (fun _ => Option.none)).outcome =
      Except.error "Failed to fetch data for Lisbon,PT" := by
  have h := C1_retry_exhaustion 3 7 "Lisbon" "PT" (fun _ => Option.none)
    (by omega) (fun i => rfl)
  exact ⟨h.1, h.2.1.trans (by decide),
    h.2.2.trans (congrArg Except.error (by decide))⟩

/-- Claim C7 (code bug): a city is counted as failed not only when the
fetch client raised its terminal exhaustion error, but also when a
successful fetch merely lacks the `dt` field: `datetime.fromtimestamp(None)`
raises a `TypeError` inside the loop's try block, the `except Exception`
handler catches it, and the city lands in the failure summary. The first
conjunct shows fetch failures are counted; the second and third show a
successful fetch of the body `{}` is also counted as failed, contradicting
the claim. -/
theorem C7_city_failure_semantics :
    (∀ (conv : Rat → DateTime) (units city country e : String),
      processCity conv units city country (Except.error e) =
        CityOutcome.failed ("Failed processing " ++ city ++ ", " ++ country ++ ": " ++ e)) ∧
    (∀ (conv : Rat → DateTime) (units city country : String),
      processCity conv units city country (Except.ok (PyVal.dict [])) =
        CityOutcome.failed ("Failed processing " ++ city ++ ", " ++ country ++
          ": " ++ "TypeError: 'NoneType' object cannot be interpreted as an integer")) ∧
    (∀ (conv : Rat → DateTime) (units city country : String),
      ingest conv units (fun _ _ => Except.ok (PyVal.dict [])) [(city, country)] =
        { success_count := 0, failed_cities_count := 1,
          failed_cities := [country ++ "." ++ city], records := [] }) := by
  refine ⟨fun conv units city country e => rfl, fun conv units city country => rfl,
    fun conv units city country => rfl⟩

/-- When converting the batch to row dicts raises, the exception
propagates out of `Storage.write` before any filesystem effect. -/
lemma write_mapM_error (st : Storage) (now : DateTime) (a : WeatherRecord)
    (l : List WeatherRecord) (e : String)
    (hm : (a :: l).mapM formatted_record = (Except.error e : Except String (List Row))) :
    st.write now (a :: l) = ([], Option.some e) := by
  simp only [Storage.write, List.isEmpty_cons, Bool.false_eq_true, if_false, hm]

/-- Claim C3 (code bug): a batch consisting solely of a record with an
absent observation timestamp is not silently excluded; instead
`formatted_record` evaluates `None.strftime(...)` and the write call
raises an `AttributeError` (before any directory or file event). -/
theorem C3_absent_timestamp_raises (st : Storage) (now : DateTime) (r : WeatherRecord)
    (h : r.timestamp = Option.none) :
    st.write now [r] = ([], Option.some fmtAttrErr) := by
  have hfr : formatted_record r = Except.error fmtAttrErr := by
    simp [formatted_record, format_datetimeOpt, h]
  refine write_mapM_error st now r [] fmtAttrErr ?_
  rw [List.mapM_cons, hfr]
  rfl

/-- Witness: C3 at a concrete storage configuration and record. -/
theorem C3_absent_timestamp_raises_witness :
    (Storage.make "out" "csv" "date").write now0 [sampleNoTs] =
      ([], Option.some "AttributeError: 'NoneType' object has no attribute 'strftime'") :=
  C3_absent_timestamp_raises (Storage.make "out" "csv" "date") now0 sampleNoTs rfl

/-- Claim C6 (code bug): an absent upstream field does not always become
a blank cell: with an absent timezone offset (upstream `timezone` field),
`timezone_str` evaluates `None // 3600` and `formatted_record` raises a
`TypeError` during the write, instead of producing a null cell. -/
theorem C6_absent_offset_raises (r : WeatherRecord) (t : DateTime)
    (h1 : r.timestamp = Option.some t) (h2 : r.timezone_offset = Option.none) :
    formatted_record r =
      Except.error "TypeError: unsupported operand type(s) for //: 'NoneType' and 'int'" := by
  simp [formatted_record, format_datetimeOpt, timezone_str, h1, h2]

/-- Witness: C6 at a concrete record. -/
theorem C6_absent_offset_raises_witness :
    formatted_record sampleNoTz =
      Except.error "TypeError: unsupported operand type(s) for //: 'NoneType' and 'int'" :=
  C6_absent_offset_raises sampleNoTz ⟨2024, 5, 3, 12, 0, 0⟩ rfl rfl

lemma mapM_formatted_ok (l : List WeatherRecord)
    (h : ∀ r ∈ l, (formatted_record r).isOk = true) :
    ∃ data, l.mapM formatted_record = Except.ok data := by
  induction l with
  | nil => exact ⟨[], rfl⟩
  | cons a tl ih =>
    obtain ⟨data, hd⟩ := ih (fun r hr => h r (List.mem_cons_of_mem a hr))
    have ha := h a (List.mem_cons_self a tl)
    cases hfa : formatted_record a with
    | error e => rw [hfa] at ha; simp [Except.isOk, Except.toBool] at ha
    | ok row =>
      refine ⟨row :: data, ?_⟩
      rw [List.mapM_cons, hfa, exceptBindOk, hd, exceptBindOk, exceptPure]

lemma saveGroups_no_save (fmt : String) (h : saveOk fmt = false) :
    ∀ (gs : List (String × String × List Row)) (p : String) (rows : List Row),
      FsEvent.save p rows ∉ (saveGroups fmt gs).1 := by
  intro gs p rows
  cases gs with
  | nil => simp [saveGroups]
  | cons g tl => simp [saveGroups, h]

/-- `Storage.write` of a one-record batch under layout `date`: one group
keyed by the record's observation date. -/
lemma write_date_single (st : Storage) (now : DateTime) (r : WeatherRecord)
    (t : DateTime) (tz wd : Int) (sr ss : DateTime)
    (h : WfAt r t tz wd sr ss) (hl : st.layout = "date") :
    st.write now [r] = saveGroups st.fmt
      [(st.base_path ++ "/year=" ++ toString t.year ++ "/month=" ++ toString t.month ++
          "/day=" ++ toString t.day,
        "weather_" ++ (fmtRunTs now ++ ("." ++ st.fmt)),
        [rowOf r t tz wd sr ss])] := by
  obtain ⟨h1, hv, h2, h3, h4, h5⟩ := h
  have hfr := formatted_record_eq r t tz wd sr ss h1 h2 h3 h4 h5
  have hm : [r].mapM formatted_record =
      Except.ok [rowOf r t tz wd sr ss] := by
    rw [List.mapM_cons, hfr]; rfl
  have hts : tsCell (rowOf r t tz wd sr ss) = Option.some t := by
    rw [tsCell_rowOf, pdToDatetime_format t hv]
  simp only [Storage.write, List.isEmpty_cons, Bool.false_eq_true, if_false, hm, hl,
    if_true]
  simp [List.filterMap, hts, groupsBy, distinctKeys, sortBy, insSorted,
    DateTime.date, List.filter]

/-- Claim C4 counterexample: with an unsupported layout tag and the
empty batch, `write` returns without raising any configuration error;
and with an unsupported format tag on a one-record batch, the group
directory is created before the error is raised. -/
theorem C4_counterexample :
    ((Storage.make "out" "csv" "bogus").write now0 []).2 = Option.none ∧
    (Storage.make "out" "xml" "date").write now0 [sampleWf] =
      ([FsEvent.mkdir "out/year=2024/month=5/day=3"],
        Option.some "Unsupported format: xml") := by
  constructor
  · rfl
  · have h := write_date_single (Storage.make "out" "xml" "date") now0 sampleWf
      ⟨2024, 5, 3, 12, 0, 0⟩ 3600 90 ⟨2024, 5, 3, 6, 0, 0⟩ ⟨2024, 5, 3, 20, 0, 0⟩
      ⟨rfl, by decide, rfl, rfl, rfl, rfl⟩ rfl
    rw [h]
    simp only [saveGroups, saveOk]
    decide

/-- Claim C4 as amended: (1) on the empty batch `write` returns
immediately with no error and no filesystem effect, regardless of the
tags; (2) on a non-empty batch whose records all format successfully, an
unsupported layout tag raises the configuration error before any file or
directory event; (3) an unsupported format tag never writes a file; and
(4) with an unsupported format under layout `date`, the error is raised
at the first group save, after that group's directory was created. -/
theorem C4_config_error_amended :
    (∀ (st : Storage) (now : DateTime), st.write now [] = ([], Option.none)) ∧
    (∀ (st : Storage) (now : DateTime) (a : WeatherRecord) (l : List WeatherRecord),
      (∀ r ∈ a :: l, (formatted_record r).isOk = true) →
      st.layout ∉ ["date", "date_country", "country_date", "hive_compact", "city_date"] →
      st.write now (a :: l) = ([], Option.some ("Unsupported layout: " ++ st.layout))) ∧
    (∀ (st : Storage) (now : DateTime) (records : List WeatherRecord),
      saveOk st.fmt = false →
      ∀ (p : String) (rows : List Row), FsEvent.save p rows ∉ (st.write now records).1) ∧
    (∀ (st : Storage) (now : DateTime) (r : WeatherRecord) (t : DateTime) (tz wd : Int)
        (sr ss : DateTime), WfAt r t tz wd sr ss → st.layout = "date" →
      saveOk st.fmt = false →
      st.write now [r] =
        ([FsEvent.mkdir (st.base_path ++ "/year=" ++ toString t.year ++ "/month=" ++
            toString t.month ++ "/day=" ++ toString t.day)],
          Option.some ("Unsupported format: " ++ st.fmt))) := by
  refine ⟨fun st now => rfl, ?_, ?_, ?_⟩
  · intro st now a l hok hl
    obtain ⟨data, hm⟩ := mapM_formatted_ok (a :: l) hok
    simp only [List.mem_cons, List.mem_singleton, not_or] at hl
    obtain ⟨n1, n2, n3, n4, n5⟩ := hl
    simp only [Storage.write, List.isEmpty_cons, Bool.false_eq_true, if_false, hm]
    rw [if_neg n1, if_neg n2, if_neg n3, if_neg n4, if_neg n5.1]
  · intro st now records hfmt p rows
    simp only [Storage.write]
    split
    · simp
    · split
      · simp
      · split
        · exact saveGroups_no_save st.fmt hfmt _ p rows
        · split
          · exact saveGroups_no_save st.fmt hfmt _ p rows
          · split
            · exact saveGroups_no_save st.fmt hfmt _ p rows
            · split
              · exact saveGroups_no_save st.fmt hfmt _ p rows
              · split
                · exact saveGroups_no_save st.fmt hfmt _ p rows
                · simp
  · intro st now r t tz wd sr ss h hl hfmt
    rw [write_date_single st now r t tz wd sr ss h hl]
    simp [saveGroups, hfmt]

/-- Witness: the amended C4 at concrete inputs — unsupported layout on a
non-empty batch raises with no events, and unsupported format under
layout `date` creates the day directory then raises. -/
theorem C4_config_error_amended_witness :
    (Storage.make "out" "csv" "bogus").write now0 [sampleWf] =
      ([], Option.some "Unsupported layout: bogus") ∧
    (Storage.make "out" "parq" "date").write now0 [sampleWf] =
      ([FsEvent.mkdir "out/year=2024/month=5/day=3"],
        Option.some "Unsupported format: parq") := by
  have h := C4_config_error_amended
  constructor
  · have hb := h.2.1 (Storage.make "out" "csv" "bogus") now0 sampleWf []
      (by
        intro r hr
        simp only [List.mem_singleton] at hr
        subst hr
        rw [formatted_record_eq sampleWf ⟨2024, 5, 3, 12, 0, 0⟩ 3600 90
          ⟨2024, 5, 3, 6, 0, 0⟩ ⟨2024, 5, 3, 20, 0, 0⟩ rfl rfl rfl rfl rfl]
        rfl)
      (by decide)
    exact hb.trans (by decide)
  · have hd := h.2.2.2 (Storage.make "out" "parq" "date") now0 sampleWf
      ⟨2024, 5, 3, 12, 0, 0⟩ 3600 90 ⟨2024, 5, 3, 6, 0, 0⟩ ⟨2024, 5, 3, 20, 0, 0⟩
      ⟨rfl, by decide, rfl, rfl, rfl, rfl⟩ rfl rfl
    exact hd.trans (by decide)

lemma strDataAppend (a b : String) : (a ++ b).data = a.data ++ b.data := rfl

lemma strExt {a b : String} (h : a.data = b.data) : a = b :=
  congrArg String.mk h

lemma strAssoc (a b c : String) : a ++ b ++ c = a ++ (b ++ c) := by
  apply strExt
  simp [strDataAppend]

/-- Strings free of the path separator, as city and country names are. -/
def noSlash (s : String) : Prop := '/' ∉ s.data

instance (s : String) : Decidable (noSlash s) := by unfold noSlash; infer_instance

/-- Two slash-free segments followed by a separator align. -/
lemma segPeel : ∀ (a c b d : List Char), '/' ∉ a → '/' ∉ c →
    a ++ '/' :: b = c ++ '/' :: d → a = c ∧ b = d := by
  intro a
  induction a with
  | nil =>
    intro c b d _ hc h
    cases c with
    | nil =>
      simp only [List.nil_append, List.cons.injEq] at h
      exact ⟨rfl, h.2⟩
    | cons y ys =>
      simp only [List.nil_append, List.cons_append, List.cons.injEq] at h
      exact absurd (by rw [← h.1]; exact List.mem_cons_self '/' ys) hc
  | cons x xs ih =>
    intro c b d ha hc h
    cases c with
    | nil =>
      simp only [List.cons_append, List.nil_append, List.cons.injEq] at h
      exact absurd (by rw [h.1]; exact List.mem_cons_self '/' xs) ha
    | cons y ys =>
      simp only [List.cons_append, List.cons.injEq] at h
      have hxs : '/' ∉ xs := fun hm => ha (List.mem_cons_of_mem x hm)
      have hys : '/' ∉ ys := fun hm => hc (List.mem_cons_of_mem y hm)
      obtain ⟨he, ht⟩ := ih ys b d hxs hys h.2
      exact ⟨by rw [h.1, he], ht⟩

lemma digitChar_isDigit : ∀ m, m < 10 → (Nat.digitChar m).isDigit = true := by decide

lemma toDigitsCore_digits :
    ∀ (fuel n : Nat) (ds : List Char), (∀ c ∈ ds, c.isDigit = true) →
      ∀ c ∈ Nat.toDigitsCore 10 fuel n ds, c.isDigit = true := by
  intro fuel
  induction fuel with
  | zero =>
    intro n ds hds c hc
    exact hds c (by simpa [Nat.toDigitsCore] using hc)
  | succ f ih =>
    intro n ds hds c hc
    have hds' : ∀ c ∈ Nat.digitChar (n % 10) :: ds, c.isDigit = true := by
      intro c hcm
      rcases List.mem_cons.mp hcm with h | h
      · rw [h]; exact digitChar_isDigit (n % 10) (Nat.mod_lt n (by norm_num))
      · exact hds c h
    simp only [Nat.toDigitsCore] at hc
    by_cases h0 : n / 10 = 0
    · rw [if_pos h0] at hc
      exact hds' c hc
    · rw [if_neg h0] at hc
      exact ih (n / 10) _ hds' c hc

lemma toString_nat_digits (n : Nat) : ∀ c ∈ (toString n).data, c.isDigit = true := by
  have he : (toString n).data = Nat.toDigitsCore 10 (n + 1) n [] := rfl
  rw [he]
  exact toDigitsCore_digits (n + 1) n [] (by intro c hc; simp at hc)

/-- Decimal renderings of date parts contain no path separator. -/
lemma noSlash_toString (n : Nat) : noSlash (toString n) := by
  intro hmem
  exact absurd (toString_nat_digits n '/' hmem) (by decide)

/-- Layout `hive_compact` directory template:
`year=Y/month=M/day=D/{country}/{city}` under the base path, date parts
unpadded. -/
def hiveDir (base : String) (t : DateTime) (co ci : String) : String :=
  base ++ "/year=" ++ toString t.year ++ "/month=" ++ toString t.month ++
    "/day=" ++ toString t.day ++ "/" ++ co ++ "/" ++ ci

/-- Layout `hive_compact` filename template: `{country}_{city}_{run_ts}.{fmt}`. -/
def hiveFname (fmt run_ts co ci : String) : String :=
  co ++ ("_" ++ (ci ++ ("_" ++ (run_ts ++ ("." ++ fmt)))))

/-- Full `hive_compact` file path. -/
def hivePath (base fmt run_ts : String) (t : DateTime) (co ci : String) : String :=
  hiveDir base t co ci ++ "/" ++ hiveFname fmt run_ts co ci

lemma dataSlashYear : ("/year=" : String).data = '/' :: ['y', 'e', 'a', 'r', '='] := rfl

lemma dataSlashMonth :
    ("/month=" : String).data = '/' :: ['m', 'o', 'n', 't', 'h', '='] := rfl

lemma dataSlashDay : ("/day=" : String).data = '/' :: ['d', 'a', 'y', '='] := rfl

lemma dataSlash : ("/" : String).data = ['/'] := rfl

lemma hivePath_data (base fmt run_ts : String) (t : DateTime) (co ci : String) :
    (hivePath base fmt run_ts t co ci).data =
      base.data ++ '/' :: (['y', 'e', 'a', 'r', '='] ++ ((toString t.year).data ++
        '/' :: (['m', 'o', 'n', 't', 'h', '='] ++ ((toString t.month).data ++
          '/' :: (['d', 'a', 'y', '='] ++ ((toString t.day).data ++
            '/' :: (co.data ++
              '/' :: (ci.data ++
                '/' :: (hiveFname fmt run_ts co ci).data)))))))) := by
  simp [hivePath, hiveDir, strDataAppend, dataSlashYear, dataSlashMonth, dataSlashDay,
    dataSlash, List.append_assoc]

/-- Two hive paths under the same base agree on their city segment when
the country and city segments are slash-free. -/
lemma hivePath_city_inj (base fmt1 fmt2 rts1 rts2 : String) (t1 t2 : DateTime)
    (co1 ci1 co2 ci2 : String) (hco1 : noSlash co1) (hci1 : noSlash ci1)
    (hco2 : noSlash co2) (hci2 : noSlash ci2)
    (h : hivePath base fmt1 rts1 t1 co1 ci1 = hivePath base fmt2 rts2 t2 co2 ci2) :
    ci1 = ci2 := by
  have hd := congrArg String.data h
  rw [hivePath_data, hivePath_data] at hd
  have h1 := List.append_cancel_left hd
  simp only [List.cons.injEq, true_and] at h1
  have h2 := List.append_cancel_left h1
  obtain ⟨-, h3⟩ := segPeel _ _ _ _ (noSlash_toString t1.year) (noSlash_toString t2.year) h2
  have h4 := List.append_cancel_left h3
  obtain ⟨-, h5⟩ := segPeel _ _ _ _ (noSlash_toString t1.month) (noSlash_toString t2.month) h4
  have h6 := List.append_cancel_left h5
  obtain ⟨-, h7⟩ := segPeel _ _ _ _ (noSlash_toString t1.day) (noSlash_toString t2.day) h6
  obtain ⟨-, h8⟩ := segPeel _ _ _ _ hco1 hco2 h7
  obtain ⟨h9, -⟩ := segPeel _ _ _ _ hci1 hci2 h8
  exact strExt h9

/-- `Storage.write` of a two-record batch under layout `hive_compact`:
one directory creation and one single-row file save per record, in row
order, sharing the one run timestamp. -/
lemma hive_write_pair (st : Storage) (now : DateTime) (r1 r2 : WeatherRecord)
    (t1 t2 : DateTime) (tz1 tz2 wd1 wd2 : Int) (sr1 sr2 ss1 ss2 : DateTime)
    (co1 ci1 co2 ci2 : String)
    (h1 : WfAt r1 t1 tz1 wd1 sr1 ss1) (h2 : WfAt r2 t2 tz2 wd2 sr2 ss2)
    (hc1 : r1.country = Option.some co1) (hi1 : r1.city = Option.some ci1)
    (hc2 : r2.country = Option.some co2) (hi2 : r2.city = Option.some ci2)
    (hl : st.layout = "hive_compact") (hf : saveOk st.fmt = true) :
    st.write now [r1, r2] =
      ([FsEvent.mkdir (hiveDir st.base_path t1 co1 ci1),
        FsEvent.save (hivePath st.base_path st.fmt (fmtRunTs now) t1 co1 ci1)
          [rowOf r1 t1 tz1 wd1 sr1 ss1],
        FsEvent.mkdir (hiveDir st.base_path t2 co2 ci2),
        FsEvent.save (hivePath st.base_path st.fmt (fmtRunTs now) t2 co2 ci2)
          [rowOf r2 t2 tz2 wd2 sr2 ss2]], Option.none) := by
  obtain ⟨h1a, h1v, h1b, h1c, h1d, h1e⟩ := h1
  obtain ⟨h2a, h2v, h2b, h2c, h2d, h2e⟩ := h2
  have hfr1 := formatted_record_eq r1 t1 tz1 wd1 sr1 ss1 h1a h1b h1c h1d h1e
  have hfr2 := formatted_record_eq r2 t2 tz2 wd2 sr2 ss2 h2a h2b h2c h2d h2e
  have hm : [r1, r2].mapM formatted_record =
      Except.ok [rowOf r1 t1 tz1 wd1 sr1 ss1, rowOf r2 t2 tz2 wd2 sr2 ss2] := by
    rw [List.mapM_cons, hfr1, exceptBindOk, List.mapM_cons, hfr2]
    rfl
  have hts1 : tsCell (rowOf r1 t1 tz1 wd1 sr1 ss1) = Option.some t1 := by
    rw [tsCell_rowOf, pdToDatetime_format t1 h1v]
  have hts2 : tsCell (rowOf r2 t2 tz2 wd2 sr2 ss2) = Option.some t2 := by
    rw [tsCell_rowOf, pdToDatetime_format t2 h2v]
  simp only [Storage.write, List.isEmpty_cons, Bool.false_eq_true, if_false, hm, hl,
    if_true]
  simp only [List.filterMap_cons, List.filterMap_nil, hts1, hts2, Option.map_some,
    List.map_cons, List.map_nil, rowGet_country_rowOf, rowGet_city_rowOf, hc1, hi1,
    hc2, hi2, cellOfStr, pyStr, saveGroups, hf, if_true]
  simp [hiveDir, hiveFname, hivePath, saveGroups, hf]

/-- Second sample observation of the same city, later the same day. -/
def sampleWfLater : WeatherRecord :=
  { sampleWf with timestamp := Option.some ⟨2024, 5, 3, 18, 30, 0⟩,
                  temperature_current := Option.some 18 }

/-- Claim C10: under layout `hive_compact`, two records sharing country,
city and observation calendar date are written to the identical file
path, and the later record's one-row file overwrites the earlier one's,
so only the later row persists after the write call. -/
theorem C10_hive_overwrite (st : Storage) (now : DateTime) (r1 r2 : WeatherRecord)
    (t1 t2 : DateTime) (tz1 tz2 wd1 wd2 : Int) (sr1 sr2 ss1 ss2 : DateTime)
    (co ci : String)
    (h1 : WfAt r1 t1 tz1 wd1 sr1 ss1) (h2 : WfAt r2 t2 tz2 wd2 sr2 ss2)
    (hdate : t1.date = t2.date)
    (hc1 : r1.country = Option.some co) (hi1 : r1.city = Option.some ci)
    (hc2 : r2.country = Option.some co) (hi2 : r2.city = Option.some ci)
    (hl : st.layout = "hive_compact") (hf : saveOk st.fmt = true) :
    ∃ p,
      savesOf ((st.write now [r1, r2]).1) =
        [(p, [rowOf r1 t1 tz1 wd1 sr1 ss1]), (p, [rowOf r2 t2 tz2 wd2 sr2 ss2])] ∧
      runFs ((st.write now [r1, r2]).1) = [(p, [rowOf r2 t2 tz2 wd2 sr2 ss2])] := by
  have hw := hive_write_pair st now r1 r2 t1 t2 tz1 tz2 wd1 wd2 sr1 sr2 ss1 ss2
    co ci co ci h1 h2 hc1 hi1 hc2 hi2 hl hf
  have hy : t1.year = t2.year := congrArg Prod.fst hdate
  have hmo : t1.month = t2.month := congrArg (fun q => q.2.1) hdate
  have hdy : t1.day = t2.day := congrArg (fun q => q.2.2) hdate
  have hpeq : hivePath st.base_path st.fmt (fmtRunTs now) t2 co ci =
      hivePath st.base_path st.fmt (fmtRunTs now) t1 co ci := by
    unfold hivePath hiveDir
    rw [hy, hmo, hdy]
  refine ⟨hivePath st.base_path st.fmt (fmtRunTs now) t1 co ci, ?_, ?_⟩
  · rw [hw]
    simp only [savesOf, List.filterMap_cons, List.filterMap_nil, hpeq]
  · rw [hw]
    simp only [runFs, List.foldl_cons, List.foldl_nil, applyEvent, hpeq]
    simp [applyEvent, List.filter]

/-- Witness: C10 at two concrete same-city, same-day records. -/
theorem C10_hive_overwrite_witness :
    ∃ p,
      savesOf (((Storage.make "out" "csv" "hive_compact").write now0
          [sampleWf, sampleWfLater]).1) =
        [(p, [rowOf sampleWf ⟨2024, 5, 3, 12, 0, 0⟩ 3600 90 ⟨2024, 5, 3, 6, 0, 0⟩
                ⟨2024, 5, 3, 20, 0, 0⟩]),
         (p, [rowOf sampleWfLater ⟨2024, 5, 3, 18, 30, 0⟩ 3600 90 ⟨2024, 5, 3, 6, 0, 0⟩
                ⟨2024, 5, 3, 20, 0, 0⟩])] ∧
      runFs (((Storage.make "out" "csv" "hive_compact").write now0
          [sampleWf, sampleWfLater]).1) =
        [(p, [rowOf sampleWfLater ⟨2024, 5, 3, 18, 30, 0⟩ 3600 90 ⟨2024, 5, 3, 6, 0, 0⟩
                ⟨2024, 5, 3, 20, 0, 0⟩])] :=
  C10_hive_overwrite (Storage.make "out" "csv" "hive_compact") now0 sampleWf sampleWfLater
    ⟨2024, 5, 3, 12, 0, 0⟩ ⟨2024, 5, 3, 18, 30, 0⟩ 3600 3600 90 90
    ⟨2024, 5, 3, 6, 0, 0⟩ ⟨2024, 5, 3, 6, 0, 0⟩ ⟨2024, 5, 3, 20, 0, 0⟩ ⟨2024, 5, 3, 20, 0, 0⟩
    "PT" "Lisbon"
    ⟨rfl, by decide, rfl, rfl, rfl, rfl⟩ ⟨rfl, by decide, rfl, rfl, rfl, rfl⟩
    rfl rfl rfl rfl rfl rfl rfl

lemma saveGroups_save_mem (fmt : String) :
    ∀ (gs : List (String × String × List Row)) (p : String) (rows : List Row),
      FsEvent.save p rows ∈ (saveGroups fmt gs).1 →
      ∃ g ∈ gs, p = g.1 ++ "/" ++ g.2.1 := by
  intro gs
  induction gs with
  | nil => intro p rows h; simp [saveGroups] at h
  | cons g tl ih =>
    intro p rows h
    by_cases hf : saveOk fmt
    · simp only [saveGroups, hf, if_true] at h
      rcases List.mem_cons.mp h with h | h
      · simp at h
      rcases List.mem_cons.mp h with h | h
      · refine ⟨g, List.mem_cons_self g tl, ?_⟩
        simp only [FsEvent.save.injEq] at h
        exact h.1
      · obtain ⟨g', hg', hp⟩ := ih p rows h
        exact ⟨g', List.mem_cons_of_mem g hg', hp⟩
    · simp only [saveGroups, hf, Bool.false_eq_true, if_false] at h
      simp at h

lemma filter_all {α : Type} (p : α → Bool) :
    ∀ l : List α, (∀ x ∈ l, p x = true) → l.filter p = l := by
  intro l
  induction l with
  | nil => intro _; rfl
  | cons a tl ih =>
    intro h
    simp [List.filter_cons, h a (List.mem_cons_self a tl),
      ih (fun x hx => h x (List.mem_cons_of_mem a hx))]

lemma filterMap_const {α κ : Type} (f : α → Option κ) (k : κ) :
    ∀ l : List α, (∀ x ∈ l, f x = Option.some k) →
      l.filterMap f = l.map (fun _ => k) := by
  intro l
  induction l with
  | nil => intro _; rfl
  | cons a tl ih =>
    intro h
    simp [List.filterMap_cons, h a (List.mem_cons_self a tl),
      ih (fun x hx => h x (List.mem_cons_of_mem a hx))]

lemma distinctKeys_const {κ : Type} [DecidableEq κ] (k : κ) :
    ∀ l : List κ, l ≠ [] → (∀ x ∈ l, x = k) → distinctKeys l = [k] := by
  intro l
  induction l with
  | nil => intro h; exact absurd rfl h
  | cons a tl ih =>
    intro _ hall
    have ha : a = k := hall a (List.mem_cons_self a tl)
    by_cases htl : tl = []
    · subst htl
      simp [distinctKeys, ha]
    · have hr := ih htl (fun x hx => hall x (List.mem_cons_of_mem a hx))
      simp [distinctKeys, hr, ha]

/-- One record of the date_country scenario: well formed, observed on
date `d0`, in country `c0`. -/
def DCRec (d0 : Nat × Nat × Nat) (c0 : String) (r : WeatherRecord) : Prop :=
  ∃ t tz wd sr ss, WfAt r t tz wd sr ss ∧ t.date = d0 ∧ r.country = Option.some c0

lemma dc_pipeline (d0 : Nat × Nat × Nat) (c0 : String) :
    ∀ l : List WeatherRecord, (∀ r ∈ l, DCRec d0 c0 r) →
      ∃ (data : List Row) (df : List (Row × DateTime)),
        l.mapM formatted_record = Except.ok data ∧
        data.filterMap (fun row => (tsCell row).map (fun ts => (row, ts))) = df ∧
        df.map (fun p => p.1) = data ∧ data.length = l.length ∧
        ∀ p ∈ df, p.2.date = d0 ∧ rowCountry p.1 = Option.some c0 := by
  intro l
  induction l with
  | nil => exact fun _ => ⟨[], [], rfl, rfl, rfl, rfl, by simp⟩
  | cons a tl ih =>
    intro h
    obtain ⟨data, df, hm, hfm, hmap, hlen, hall⟩ :=
      ih (fun r hr => h r (List.mem_cons_of_mem a hr))
    obtain ⟨t, tz, wd, sr, ss, hw, hd, hc⟩ := h a (List.mem_cons_self a tl)
    obtain ⟨ha1, hav, ha2, ha3, ha4, ha5⟩ := hw
    have hfr := formatted_record_eq a t tz wd sr ss ha1 ha2 ha3 ha4 ha5
    have hts : tsCell (rowOf a t tz wd sr ss) = Option.some t := by
      rw [tsCell_rowOf, pdToDatetime_format t hav]
    refine ⟨rowOf a t tz wd sr ss :: data, (rowOf a t tz wd sr ss, t) :: df,
      ?_, ?_, ?_, ?_, ?_⟩
    · rw [List.mapM_cons, hfr, exceptBindOk, hm, exceptBindOk, exceptPure]
    · simp [List.filterMap_cons, hts, hfm]
    · simp [hmap]
    · simp [hlen]
    · intro p hp
      rcases List.mem_cons.mp hp with hp | hp
      · subst hp
        refine ⟨hd, ?_⟩
        rw [rowCountry_rowOf, hc]
      · exact hall p hp

/-- `Storage.write` under layout `date_country` on a batch whose records
all share the observation date `d0` and country `c0`: one single group
holding every record's row. -/
lemma write_date_country_all (st : Storage) (now : DateTime)
    (records : List WeatherRecord) (d0 : Nat × Nat × Nat) (c0 : String)
    (hne : records ≠ []) (h : ∀ r ∈ records, DCRec d0 c0 r)
    (hl : st.layout = "date_country") :
    ∃ rows, rows.length = records.length ∧
      st.write now records = saveGroups st.fmt
        [(st.base_path ++ "/year=" ++ toString d0.1 ++ "/month=" ++ toString d0.2.1 ++
            "/day=" ++ toString d0.2.2,
          c0 ++ ("_weather_" ++ (fmtRunTs now ++ ("." ++ st.fmt))), rows)] := by
  obtain ⟨data, df, hm, hfm, hmap, hlen, hall⟩ := dc_pipeline d0 c0 records h
  obtain ⟨a, tl, rfl⟩ := List.exists_cons_of_ne_nil hne
  have hdfne : df ≠ [] := by
    intro hdf
    rw [hdf] at hmap
    rw [← hmap] at hlen
    simp at hlen
  have hkeys : ∀ p ∈ df,
      (Option.map (fun c => (p.2.date, c)) (rowCountry p.1)) = Option.some (d0, c0) := by
    intro p hp
    obtain ⟨h1, h2⟩ := hall p hp
    rw [h2, h1]
    rfl
  have hfk : df.filterMap
        (fun p => Option.map (fun c => (p.2.date, c)) (rowCountry p.1)) =
      df.map (fun _ => (d0, c0)) :=
    filterMap_const _ _ df hkeys
  have hkne : df.map (fun _ => ((d0, c0) : (Nat × Nat × Nat) × String)) ≠ [] := by
    simpa using hdfne
  have hdk : distinctKeys (df.map (fun _ => ((d0, c0) : (Nat × Nat × Nat) × String)))
      = [(d0, c0)] :=
    distinctKeys_const (d0, c0) _ hkne (by simp)
  have hfilter : df.filter
      (fun p => decide ((Option.map (fun c => (p.2.date, c)) (rowCountry p.1))
        = Option.some (d0, c0))) = df := by
    refine filter_all _ df ?_
    intro p hp
    simp [hkeys p hp]
  refine ⟨data, hlen, ?_⟩
  simp only [Storage.write, List.isEmpty_cons, Bool.false_eq_true, if_false, hm, hl,
    if_true]
  unfold groupsBy
  rw [hfm, hfk, hdk]
  simp only [sortBy, List.foldr_cons, List.foldr_nil, insSorted, List.map_cons,
    List.map_nil, hfilter, hmap]
  rw [if_neg (by decide)]

lemma presplit2 (a b s : String) : ∃ pre, a ++ "/" ++ (b ++ s) = pre ++ s :=
  ⟨a ++ "/" ++ b, by simp only [strAssoc]⟩

lemma presplit3 (a b c s : String) : ∃ pre, a ++ "/" ++ (b ++ (c ++ s)) = pre ++ s :=
  ⟨a ++ "/" ++ b ++ c, by simp only [strAssoc]⟩

lemma presplit5 (a b c d e s : String) :
    ∃ pre, a ++ "/" ++ (b ++ (c ++ (d ++ (e ++ s)))) = pre ++ s :=
  ⟨a ++ "/" ++ b ++ c ++ d ++ e, by simp only [strAssoc]⟩

/-- Claim C2: records are assigned to groups and file paths per the layout
table. (1) Every file path produced by one write call, under any layout,
ends with the single run timestamp of that call followed by the format
extension. (2) Under `hive_compact`, a batch of two well-formed records
with different cities yields exactly two saves with distinct file paths,
each carrying exactly one row, the paths following the
`year=Y/month=M/day=D/{country}/{city}/{country}_{city}_{run_ts}.{fmt}`
template. (3) Under `date_country`, a non-empty batch of well-formed
records sharing observation date and country lands in one single file
`year=Y/month=M/day=D/{country}_weather_{run_ts}.{fmt}` (unpadded date
parts) holding one row per record. -/
theorem C2_layout_partitioning :
    (∀ (st : Storage) (now : DateTime) (records : List WeatherRecord) (p : String)
        (rows : List Row), FsEvent.save p rows ∈ (st.write now records).1 →
      ∃ pre, p = pre ++ (fmtRunTs now ++ ("." ++ st.fmt))) ∧
    (∀ (st : Storage) (now : DateTime) (r1 r2 : WeatherRecord) (t1 t2 : DateTime)
        (tz1 tz2 wd1 wd2 : Int) (sr1 sr2 ss1 ss2 : DateTime) (co1 ci1 co2 ci2 : String),
      WfAt r1 t1 tz1 wd1 sr1 ss1 → WfAt r2 t2 tz2 wd2 sr2 ss2 →
      r1.country = Option.some co1 → r1.city = Option.some ci1 →
      r2.country = Option.some co2 → r2.city = Option.some ci2 →
      noSlash co1 → noSlash ci1 → noSlash co2 → noSlash ci2 → ci1 ≠ ci2 →
      st.layout = "hive_compact" → saveOk st.fmt = true →
      (st.write now [r1, r2]).2 = Option.none ∧
      savesOf ((st.write now [r1, r2]).1) =
        [(hivePath st.base_path st.fmt (fmtRunTs now) t1 co1 ci1,
          [rowOf r1 t1 tz1 wd1 sr1 ss1]),
         (hivePath st.base_path st.fmt (fmtRunTs now) t2 co2 ci2,
          [rowOf r2 t2 tz2 wd2 sr2 ss2])] ∧
      hivePath st.base_path st.fmt (fmtRunTs now) t1 co1 ci1 ≠
        hivePath st.base_path st.fmt (fmtRunTs now) t2 co2 ci2) ∧
    (∀ (st : Storage) (now : DateTime) (records : List WeatherRecord)
        (d0 : Nat × Nat × Nat) (c0 : String),
      records ≠ [] → (∀ r ∈ records, DCRec d0 c0 r) →
      st.layout = "date_country" → saveOk st.fmt = true →
      ∃ rows, rows.length = records.length ∧
        (st.write now records).2 = Option.none ∧
        savesOf ((st.write now records).1) =
          [((st.base_path ++ "/year=" ++ toString d0.1 ++ "/month=" ++ toString d0.2.1 ++
              "/day=" ++ toString d0.2.2) ++ "/" ++
            (c0 ++ ("_weather_" ++ (fmtRunTs now ++ ("." ++ st.fmt)))), rows)]) := by
  refine ⟨?_, ?_, ?_⟩
  · intro st now records p rows hmem
    simp only [Storage.write] at hmem
    split at hmem
    · simp at hmem
    · split at hmem
      · simp at hmem
      · split at hmem
        · obtain ⟨g, hg, hp⟩ := saveGroups_save_mem st.fmt _ p rows hmem
          obtain ⟨x, hx, hgx⟩ := List.mem_map.mp hg
          subst hgx
          subst hp
          exact presplit2 _ "weather_" _
        · split at hmem
          · obtain ⟨g, hg, hp⟩ := saveGroups_save_mem st.fmt _ p rows hmem
            obtain ⟨x, hx, hgx⟩ := List.mem_map.mp hg
            subst hgx
            subst hp
            exact presplit3 _ x.1.2 "_weather_" _
          · split at hmem
            · obtain ⟨g, hg, hp⟩ := saveGroups_save_mem st.fmt _ p rows hmem
              obtain ⟨x, hx, hgx⟩ := List.mem_map.mp hg
              subst hgx
              subst hp
              exact presplit2 _ "weather_" _
            · split at hmem
              · obtain ⟨g, hg, hp⟩ := saveGroups_save_mem st.fmt _ p rows hmem
                obtain ⟨x, hx, hgx⟩ := List.mem_map.mp hg
                subst hgx
                subst hp
                exact presplit5 _ (pyStr (rowGet x.1 "Country")) "_"
                  (pyStr (rowGet x.1 "City")) "_" _
              · split at hmem
                · obtain ⟨g, hg, hp⟩ := saveGroups_save_mem st.fmt _ p rows hmem
                  obtain ⟨x, hx, hgx⟩ := List.mem_map.mp hg
                  subst hgx
                  subst hp
                  exact presplit2 _ "weather_" _
                · simp at hmem
  · intro st now r1 r2 t1 t2 tz1 tz2 wd1 wd2 sr1 sr2 ss1 ss2 co1 ci1 co2 ci2
      h1 h2 hc1 hi1 hc2 hi2 hnco1 hnci1 hnco2 hnci2 hne hl hf
    have hw := hive_write_pair st now r1 r2 t1 t2 tz1 tz2 wd1 wd2 sr1 sr2 ss1 ss2
      co1 ci1 co2 ci2 h1 h2 hc1 hi1 hc2 hi2 hl hf
    refine ⟨by rw [hw], ?_, ?_⟩
    · rw [hw]
      simp only [savesOf, List.filterMap_cons, List.filterMap_nil]
    · intro he
      exact hne (hivePath_city_inj st.base_path st.fmt st.fmt (fmtRunTs now)
        (fmtRunTs now) t1 t2 co1 ci1 co2 ci2 hnco1 hnci1 hnco2 hnci2 he)
  · intro st now records d0 c0 hne h hl hf
    obtain ⟨rows, hlen, hw⟩ := write_date_country_all st now records d0 c0 hne h hl
    refine ⟨rows, hlen, ?_, ?_⟩
    · rw [hw]
      simp [saveGroups, hf]
    · rw [hw]
      simp [saveGroups, hf, savesOf]

/-- Witness: C2's hive_compact clause at two concrete records differing
only in city. -/
theorem C2_layout_partitioning_witness :
    ((Storage.make "out" "csv" "hive_compact").write now0 [sampleWf, sampleWf2]).2 =
      Option.none ∧
    savesOf (((Storage.make "out" "csv" "hive_compact").write now0
        [sampleWf, sampleWf2]).1) =
      [(hivePath "out" "csv" (fmtRunTs now0) ⟨2024, 5, 3, 12, 0, 0⟩ "PT" "Lisbon",
        [rowOf sampleWf ⟨2024, 5, 3, 12, 0, 0⟩ 3600 90 ⟨2024, 5, 3, 6, 0, 0⟩
          ⟨2024, 5, 3, 20, 0, 0⟩]),
       (hivePath "out" "csv" (fmtRunTs now0) ⟨2024, 5, 3, 12, 0, 0⟩ "PT" "Porto",
        [rowOf sampleWf2 ⟨2024, 5, 3, 12, 0, 0⟩ 3600 90 ⟨2024, 5, 3, 6, 0, 0⟩
          ⟨2024, 5, 3, 20, 0, 0⟩])] ∧
    hivePath "out" "csv" (fmtRunTs now0) ⟨2024, 5, 3, 12, 0, 0⟩ "PT" "Lisbon" ≠
      hivePath "out" "csv" (fmtRunTs now0) ⟨2024, 5, 3, 12, 0, 0⟩ "PT" "Porto" :=
  C2_layout_partitioning.2.1 (Storage.make "out" "csv" "hive_compact") now0
    sampleWf sampleWf2 ⟨2024, 5, 3, 12, 0, 0⟩ ⟨2024, 5, 3, 12, 0, 0⟩ 3600 3600 90 90
    ⟨2024, 5, 3, 6, 0, 0⟩ ⟨2024, 5, 3, 6, 0, 0⟩ ⟨2024, 5, 3, 20, 0, 0⟩
    ⟨2024, 5, 3, 20, 0, 0⟩ "PT" "Lisbon" "PT" "Porto"
    ⟨rfl, by decide, rfl, rfl, rfl, rfl⟩ ⟨rfl, by decide, rfl, rfl, rfl, rfl⟩
    rfl rfl rfl rfl (by decide) (by decide) (by decide) (by decide) (by decide)
    rfl rfl

end WP
